import Mathlib

/-!
A shallow embedding of the validated-attribute machinery of the Fluent-Python
repository (Part5-Metaprogramming: property_bulkfood.py, descriptor_bulkfood.py,
descriptor_bulkfood2.py, property_factory.py, metaclass_bulkfood.py), together
with a model of the repository's file-level import structure.

An instance `__dict__` is modelled as an association list from attribute names
to values.  A Python setter that may raise is modelled as a function
`Dict → Dict × Option String`: the first component is the instance dictionary
after the call, the second the message of the `ValueError` raised, if any.
Attribute reads that can see either a stored value or a descriptor object are
modelled with the `PyObj` type below.
-/

namespace FluentPython

/-- A Python value stored in an instance dictionary: either a number
(weights and prices; modelled as integers, the contract being purely
order-theoretic) or a string (descriptions). -/
inductive Value where
  | num (n : Int)
  | str (s : String)
deriving DecidableEq, Repr

/-- An instance `__dict__`: insertion-ordered association list. -/
def Dict : Type := List (String × Value)

instance : DecidableEq Dict := by unfold Dict; infer_instance

/-- Python `d[k] = v`: replace the value in place if the key is present,
otherwise append the new binding. -/
def dictSet : Dict → String → Value → Dict
  | [], k, v => [(k, v)]
  | (k', v') :: rest, k, v =>
      if k' = k then (k, v) :: rest else (k', v') :: dictSet rest k v

/-- Python `d[k]` / `getattr` lookup in the instance dictionary. -/
def dictGet : Dict → String → Option Value
  | [], _ => none
  | (k', v') :: rest, k => if k' = k then some v' else dictGet rest k

/-- What a Python attribute read can produce: a stored value, the descriptor
object itself (identified by its `storage_name`), or an `AttributeError`. -/
inductive PyObj where
  | val (v : Value)
  | descr (storage_name : String)
  | attrError
deriving DecidableEq, Repr

/-- The shared shape of every numeric setter in the bulkfood examples
(`LineItem.weight.setter` in property_bulkfood.py, `Quantity.__set__` and
`QuantityAuto.__set__` in descriptor_bulkfood.py, `qty_setter` in
property_factory.py): store the value under `sname` when it is positive,
otherwise raise `ValueError('value must be > 0')`. -/
def quantitySet (sname : String) (d : Dict) (v : Int) : Dict × Option String :=
  if v > 0 then (dictSet d sname (Value.num v), none)
  else (d, some "value must be > 0")

/-- `Quantity.validate` from descriptor_bulkfood2.py: raise on `value <= 0`,
otherwise return the value unchanged. -/
def quantityValidate (v : Int) : Except String Int :=
  if v ≤ 0 then Except.error "value must be > 0" else Except.ok v

/-- Python `str.strip()` (whitespace on both ends).  The source only ever
strips ASCII whitespace; this is the character class used here. -/
def isPySpace (c : Char) : Bool :=
  c = ' ' || c = '\t' || c = '\n' || c = '\r' || c = '\x0b' || c = '\x0c'

/-- `s.strip()` on the character list of `s`. -/
def pyStrip (s : String) : String :=
  String.mk (((s.data.dropWhile isPySpace).reverse.dropWhile isPySpace).reverse)

/-- `NonBlank.validate` from descriptor_bulkfood2.py: strip the string, raise
`ValueError('value cannot be empty or blank')` when nothing is left,
otherwise return the stripped string. -/
def nonBlankValidate (s : String) : Except String String :=
  let s' := pyStrip s
  if s'.length = 0 then Except.error "value cannot be empty or blank"
  else Except.ok s'

/-- `AutoStorage.__set__` from descriptor_bulkfood2.py: unconditional
`setattr(instance, self.storage_name, value)` (the storage name is never a
class attribute, so this is a plain instance-dictionary write). -/
def autoStorageSet (sname : String) (d : Dict) (v : Value) : Dict × Option String :=
  (dictSet d sname v, none)

/-- `Validated.__set__` specialised to the `Quantity` subclass of
descriptor_bulkfood2.py: `value = self.validate(instance, value)` followed by
`super().__set__(instance, value)`. -/
def validatedQuantitySet (sname : String) (d : Dict) (v : Int) : Dict × Option String :=
  match quantityValidate v with
  | Except.ok v' => autoStorageSet sname d (Value.num v')
  | Except.error e => (d, some e)

/-- `Validated.__set__` specialised to the `NonBlank` subclass of
descriptor_bulkfood2.py. -/
def validatedNonBlankSet (sname : String) (d : Dict) (s : String) : Dict × Option String :=
  match nonBlankValidate s with
  | Except.ok s' => autoStorageSet sname d (Value.str s')
  | Except.error e => (d, some e)

/-- `AutoStorage.__get__` from descriptor_bulkfood2.py: with no instance
(access through the managed class) return the descriptor itself, otherwise
read the storage attribute of the instance (an unset storage attribute is an
`AttributeError`). -/
def autoStorageGet (sname : String) (inst : Option Dict) : PyObj :=
  match inst with
  | none => PyObj.descr sname
  | some d =>
      match dictGet d sname with
      | some v => PyObj.val v
      | none => PyObj.attrError

/-- `QuantityAuto.__get__` from descriptor_bulkfood.py (same protocol body as
`AutoStorage.__get__`). -/
def quantityAutoGet (sname : String) (inst : Option Dict) : PyObj :=
  match inst with
  | none => PyObj.descr sname
  | some d =>
      match dictGet d sname with
      | some v => PyObj.val v
      | none => PyObj.attrError

/-- `qty_getter` from property_factory.py: read `instance.__dict__[storage_name]`
directly (and `qty_getter` of `quantity_auto`, whose `getattr` on the storage
name is the same dictionary lookup). -/
def qtyGetter (sname : String) (d : Dict) : Option Value := dictGet d sname

/-- Sequence two statements of a Python method body: the second runs only when
the first did not raise. -/
def seqSet (r : Dict × Option String) (f : Dict → Dict × Option String) :
    Dict × Option String :=
  match r with
  | (d, none) => f d
  | (d, some e) => (d, some e)

/-! ### property_bulkfood.py: `LineItem` with a `weight` property

Class attributes: `weight` is a property (getter reads, setter validates,
storage attribute `_LineItem__weight` after name mangling of `self.__weight`);
`description` and `price` are plain instance attributes. -/

/-- The `weight` property setter of property_bulkfood.py's `LineItem`. -/
def propLineItemSetWeight (d : Dict) (v : Int) : Dict × Option String :=
  quantitySet "_LineItem__weight" d v

/-- The `weight` property getter of property_bulkfood.py's `LineItem`:
`return self.__weight`. -/
def propLineItemGetWeight (d : Dict) : Option Value :=
  dictGet d "_LineItem__weight"

/-- `setattr` on a property_bulkfood.py `LineItem` instance: `weight` goes
through the property setter (a non-numeric operand of `>` would be a
`TypeError`); every other name, `price` included, is a plain write. -/
def propLineItemSetattr (d : Dict) (name : String) (v : Value) : Dict × Option String :=
  if name = "weight" then
    match v with
    | Value.num n => propLineItemSetWeight d n
    | Value.str _ => (d, some "TypeError")
  else (dictSet d name v, none)

/-- `LineItem.__init__` of property_bulkfood.py: assign `description`,
`weight` (property setter already active), then `price`, stopping at the
first raised exception. -/
def propLineItemInit (desc : String) (w p : Int) : Dict × Option String :=
  seqSet (propLineItemSetattr [] "description" (Value.str desc)) fun d0 =>
  seqSet (propLineItemSetattr d0 "weight" (Value.num w)) fun d1 =>
  propLineItemSetattr d1 "price" (Value.num p)

/-- `LineItem.subtotal` of property_bulkfood.py: `self.weight * self.price`
(weight through the property getter, price from the instance dictionary). -/
def propLineItemSubtotal (d : Dict) : Option Int :=
  match propLineItemGetWeight d, dictGet d "price" with
  | some (Value.num w), some (Value.num p) => some (w * p)
  | _, _ => none

/-! ### descriptor_bulkfood.py: set-only `Quantity` descriptors

`LineItem.weight = Quantity('weight')`, `LineItem.price = Quantity('price')`:
the storage attribute has the same name as the managed attribute, and the
descriptor defines `__set__` but no `__get__`, so an instance-dictionary
entry shadows the class-level descriptor on reads. -/

/-- Attribute read through a descriptor_bulkfood.py `LineItem` *instance*:
for `weight`/`price` the class attribute is a `Quantity` with `__set__` but
no `__get__`, so Python returns the instance `__dict__` entry when present
and the descriptor object otherwise; other names are plain lookups. -/
def qLineItemGetattr (d : Dict) (name : String) : PyObj :=
  if name = "weight" || name = "price" then
    match dictGet d name with
    | some v => PyObj.val v
    | none => PyObj.descr name
  else
    match dictGet d name with
    | some v => PyObj.val v
    | none => PyObj.attrError

/-- Attribute read through the descriptor_bulkfood.py `LineItem` *class*:
`LineItem.weight` finds the `Quantity` descriptor (no `__get__` to call) and
returns it. -/
def qLineItemClassGetattr (name : String) : PyObj :=
  if name = "weight" || name = "price" then PyObj.descr name
  else PyObj.attrError

/-- `LineItem.__init__` of descriptor_bulkfood.py: `description`, `weight`,
`price`, the last two through `Quantity.__set__`. -/
def qLineItemInit (desc : String) (w p : Int) : Dict × Option String :=
  seqSet (dictSet [] "description" (Value.str desc), none) fun d0 =>
  seqSet (quantitySet "weight" d0 w) fun d1 =>
  quantitySet "price" d1 p

/-- `LineItem.subtotal` of descriptor_bulkfood.py: `self.weight * self.price`,
reads going through the shadowing instance attributes. -/
def qLineItemSubtotal (d : Dict) : Option Int :=
  match qLineItemGetattr d "weight", qLineItemGetattr d "price" with
  | PyObj.val (Value.num w), PyObj.val (Value.num p) => some (w * p)
  | _, _ => none

/-! ### descriptor_bulkfood.py: `LineItemAuto` with `QuantityAuto`

`weight = QuantityAuto()` receives storage name `_QuantityAuto#0` and
`price = QuantityAuto()` receives `_QuantityAuto#1` (class counter). -/

/-- Attribute read through a `LineItemAuto` instance: `weight`/`price` call
`QuantityAuto.__get__` with the instance. -/
def qaLineItemGetattr (d : Dict) (name : String) : PyObj :=
  if name = "weight" then quantityAutoGet "_QuantityAuto#0" (some d)
  else if name = "price" then quantityAutoGet "_QuantityAuto#1" (some d)
  else
    match dictGet d name with
    | some v => PyObj.val v
    | none => PyObj.attrError

/-- Attribute read through the `LineItemAuto` class: `QuantityAuto.__get__`
receives `None` for the instance. -/
def qaLineItemClassGetattr (name : String) : PyObj :=
  if name = "weight" then quantityAutoGet "_QuantityAuto#0" none
  else if name = "price" then quantityAutoGet "_QuantityAuto#1" none
  else PyObj.attrError

/-- `LineItemAuto.__init__` of descriptor_bulkfood.py: `description`, then
`price`, then `weight` (this is the order in the source). -/
def qaLineItemInit (desc : String) (w p : Int) : Dict × Option String :=
  seqSet (dictSet [] "description" (Value.str desc), none) fun d0 =>
  seqSet (quantitySet "_QuantityAuto#1" d0 p) fun d1 =>
  quantitySet "_QuantityAuto#0" d1 w

/-- `LineItemAuto.subtotal` of descriptor_bulkfood.py. -/
def qaLineItemSubtotal (d : Dict) : Option Int :=
  match qaLineItemGetattr d "weight", qaLineItemGetattr d "price" with
  | PyObj.val (Value.num w), PyObj.val (Value.num p) => some (w * p)
  | _, _ => none

/-! ### property_factory.py: `LineItem` built from the `quantity` factory

`weight = quantity('weight')`, `price = quantity('price')`: properties whose
getter/setter read and write `instance.__dict__[storage_name]` directly. -/

/-- `LineItem.__init__` of property_factory.py: `description`, `weight`,
`price`; the weight/price properties are already active. -/
def pfLineItemInit (desc : String) (w p : Int) : Dict × Option String :=
  seqSet (dictSet [] "description" (Value.str desc), none) fun d0 =>
  seqSet (quantitySet "weight" d0 w) fun d1 =>
  quantitySet "price" d1 p

/-- `LineItem.subtotal` of property_factory.py: reads go through the
factory-made property getters. -/
def pfLineItemSubtotal (d : Dict) : Option Int :=
  match qtyGetter "weight" d, qtyGetter "price" d with
  | some (Value.num w), some (Value.num p) => some (w * p)
  | _, _ => none

/-! ### descriptor_bulkfood2.py: `LineItem` with `Validated` descriptors

After the `@entity` decorator the storage names are `_NonBlank#description`,
`_Quantity#weight` and `_Quantity#price` (the metaclass_bulkfood.py `LineItem`
ends up with the same three storage names). -/

/-- `LineItem.__init__` of descriptor_bulkfood2.py: `description`, then
`price`, then `weight` (the order in the source), each through
`Validated.__set__`. -/
def v2LineItemInit (desc : String) (w p : Int) : Dict × Option String :=
  seqSet (validatedNonBlankSet "_NonBlank#description" [] desc) fun d0 =>
  seqSet (validatedQuantitySet "_Quantity#price" d0 p) fun d1 =>
  validatedQuantitySet "_Quantity#weight" d1 w

/-- `LineItem.subtotal` of descriptor_bulkfood2.py: reads go through
`AutoStorage.__get__` with the instance. -/
def v2LineItemSubtotal (d : Dict) : Option Int :=
  match autoStorageGet "_Quantity#weight" (some d),
        autoStorageGet "_Quantity#price" (some d) with
  | PyObj.val (Value.num w), PyObj.val (Value.num p) => some (w * p)
  | _, _ => none

/-! ### Auto-generated storage names

`'_⟨prefix⟩#⟨index⟩'.format` needs a decimal rendering of the counter; it is
implemented here by fuel-based structural recursion so that it evaluates by
kernel reduction. -/

/-- Little-endian decimal digits of `n` (fuel-based; `fuel ≥ n` suffices). -/
def natDigitsLE : Nat → Nat → List Nat
  | 0, _ => []
  | fuel + 1, n => if n = 0 then [] else n % 10 :: natDigitsLE fuel (n / 10)

/-- Value of a little-endian decimal digit list. -/
def fromDigitsLE : List Nat → Nat
  | [] => 0
  | d :: ds => d + 10 * fromDigitsLE ds

/-- The character list of the decimal rendering of `n`. -/
def natReprChars (n : Nat) : List Char :=
  if n = 0 then ['0'] else ((natDigitsLE n n).map Nat.digitChar).reverse

/-- Decimal rendering of `n`, the embedding of `'{}'.format(index)`. -/
def natRepr (n : Nat) : String := String.mk (natReprChars n)

/-- The storage name `'_{}#{}'.format(prefix, index)` built by
`AutoStorage.__init__` (descriptor_bulkfood2.py) and `QuantityAuto.__init__`
(descriptor_bulkfood.py), where the prefix is the descriptor class's name. -/
def autoStorageName (pre : String) (i : Nat) : String :=
  String.mk ('_' :: pre.data ++ '#' :: (natRepr i).data)

/-- One run of `AutoStorage.__init__` / `QuantityAuto.__init__`: read the
class counter, build the storage name from it, bump the counter. -/
def mkAutoStorage (pre : String) (counter : Nat) : String × Nat :=
  (autoStorageName pre counter, counter + 1)

/-- The storage name `'_{}:{}'.format('quantity_auto', counter)` built by the
`quantity_auto` property factory of property_factory.py. -/
def quantityAutoName (k : Nat) : String :=
  String.mk ('_' :: "quantity_auto".data ++ ':' :: (natRepr k).data)

/-- One call of `quantity_auto()`: `try: counter += 1 except AttributeError:
counter = 0`, then build the storage name from the counter.  The state is
`none` before the first call (the function attribute is unset). -/
def mkQuantityAuto (counter : Option Nat) : String × Option Nat :=
  match counter with
  | none => (quantityAutoName 0, some 0)
  | some c => (quantityAutoName (c + 1), some (c + 1))

/-! ### Class bodies and storage-key customization

A class body, as seen by the `entity` decorator and the `EntityMeta` /
`EntityMeta2` metaclasses of metaclass_bulkfood.py, is an ordered list of
(attribute name, class attribute) pairs; only `Validated` descriptor
instances are of interest, everything else (`__module__`, methods, ...) is
`other`. -/

/-- The two concrete `Validated` subclasses of descriptor_bulkfood2.py. -/
inductive VKind where
  | quantity
  | nonBlank
deriving DecidableEq, Repr

/-- `type(attr).__name__` for a `Validated` descriptor. -/
def vTypeName : VKind → String
  | VKind.quantity => "Quantity"
  | VKind.nonBlank => "NonBlank"

/-- A class attribute as inspected by `isinstance(attr, Validated)`:
a `Validated` descriptor carrying its current `storage_name`, or anything
else. -/
inductive ClassAttr where
  | validated (kind : VKind) (storage_name : String)
  | other
deriving DecidableEq, Repr

/-- Whether a class attribute is a `Validated` descriptor instance. -/
def isValidatedAttr : ClassAttr → Bool
  | ClassAttr.validated _ _ => true
  | ClassAttr.other => false

/-- The loop body shared verbatim by `entity`, `EntityMeta.__init__` and
`EntityMeta2.__init__`: when the attribute is a `Validated` descriptor,
overwrite its `storage_name` with
`'_{}#{}'.format(type(attr).__name__, key)`; leave anything else alone. -/
def validatedRename (key : String) (a : ClassAttr) : ClassAttr :=
  match a with
  | ClassAttr.validated k _ =>
      ClassAttr.validated k (String.mk ('_' :: (vTypeName k).data ++ '#' :: key.data))
  | ClassAttr.other => ClassAttr.other

/-- The `entity` class decorator of descriptor_bulkfood2.py: for every
`Validated` class attribute under key `key`, overwrite its `storage_name`. -/
def entityDecorate (body : List (String × ClassAttr)) : List (String × ClassAttr) :=
  body.map fun p => (p.1, validatedRename p.1 p.2)

/-- `EntityMeta.__init__` of metaclass_bulkfood.py: the same storage-name
rewrite, performed over `attr_dict` when the class is built. -/
def entityMetaInit (body : List (String × ClassAttr)) : List (String × ClassAttr) :=
  body.map fun p => (p.1, validatedRename p.1 p.2)

/-- `EntityMeta2.__init__` of metaclass_bulkfood.py: walk the ordered
`attr_dict` (an `OrderedDict`, thanks to `__prepare__`), rewrite every
`Validated` descriptor's `storage_name`, and collect the keys of the
`Validated` fields, in order, into `cls._field_names`. -/
def entityMeta2Init : List (String × ClassAttr) → List (String × ClassAttr) × List String
  | [] => ([], [])
  | (key, ClassAttr.validated k sn) :: rest =>
      let r := entityMeta2Init rest
      ((key, validatedRename key (ClassAttr.validated k sn)) :: r.1, key :: r.2)
  | (key, ClassAttr.other) :: rest =>
      let r := entityMeta2Init rest
      ((key, ClassAttr.other) :: r.1, r.2)

/-- `Entity2.field_names` of metaclass_bulkfood.py: yield the entries of
`cls._field_names` in order. -/
def fieldNames (cls : List (String × ClassAttr) × List String) : List String :=
  cls.2

/-- The class body of metaclass_bulkfood.py's `LineItem`, in declaration
order, as the `OrderedDict` handed to `EntityMeta2.__init__`.  The initial
storage names come from the `AutoStorage` subclass counters, which continue
from the descriptors already created while importing descriptor_bulkfood2.py
(one `NonBlank` and two `Quantity` instances), so they start at
`_NonBlank#1` and `_Quantity#2`. -/
def metaLineItemBody : List (String × ClassAttr) :=
  [("__module__", ClassAttr.other),
   ("__qualname__", ClassAttr.other),
   ("__doc__", ClassAttr.other),
   ("description", ClassAttr.validated VKind.nonBlank "_NonBlank#1"),
   ("weight", ClassAttr.validated VKind.quantity "_Quantity#2"),
   ("price", ClassAttr.validated VKind.quantity "_Quantity#3"),
   ("__init__", ClassAttr.other),
   ("subtotal", ClassAttr.other)]

/-! ### File-level import structure of the repository -/

/-- A source file of the repository together with the list of modules of
this same repository that it imports (transcribed from the `import` /
`from ... import` statements of each file, whether at top level or inside
an embedded doctest — the doctests are how a file's behaviour is observed;
standard-library imports are not listed, and neither is a file's doctest
re-import of itself, such as decorator_registration.py importing
`decorator_registration`, which depends on no *other* file).
`class_Vector`, imported by operator_overloading.py, has no file under the
repository but is clearly meant as a sibling module. -/
structure SourceFile where
  name : String
  internalImports : List String
deriving DecidableEq, Repr

/-- All 32 source files of the repository with their repository-internal
dependencies, doctest-level imports included: inheritance_mro.py's doctest does
`from structure_frenchdeck import FrenchDeck2` and prints its MRO,
operator_overloading.py's doctest does `from class_Vector2d import Vector2d`,
and metaclass_evaltime2.py's doctest does
`from descriptor_bulkfood2 import LineItem`. -/
def repoFiles : List SourceFile :=
  [⟨"structure_frenchdeck", []⟩,
   ⟨"structure_mapping", []⟩,
   ⟨"unicode_normeq", []⟩,
   ⟨"decorator_clock", []⟩,
   ⟨"decorator_closure", []⟩,
   ⟨"decorator_parameter", []⟩,
   ⟨"decorator_registration", []⟩,
   ⟨"decorator_singledispatch", []⟩,
   ⟨"function", []⟩,
   ⟨"abc_tombola", []⟩,
   ⟨"class_Vector2d", []⟩,
   ⟨"inheritance_mro", ["structure_frenchdeck"]⟩,
   ⟨"inheritance_subclassing", []⟩,
   ⟨"object_reference_mutability", []⟩,
   ⟨"operator_overloading", ["abc_tombola", "class_Vector", "class_Vector2d"]⟩,
   ⟨"contextmanager_mirror", []⟩,
   ⟨"generator", []⟩,
   ⟨"iterator_sentence", []⟩,
   ⟨"attribute_osconfeed", []⟩,
   ⟨"attribute_schedule", ["attribute_osconfeed"]⟩,
   ⟨"attribute_schedule2", ["attribute_osconfeed"]⟩,
   ⟨"descriptor_bulkfood", []⟩,
   ⟨"descriptor_bulkfood2", []⟩,
   ⟨"descriptor_kinds", []⟩,
   ⟨"metaclass_bulkfood", ["descriptor_bulkfood2"]⟩,
   ⟨"metaclass_evalsupport", []⟩,
   ⟨"metaclass_evaltime", ["metaclass_evalsupport"]⟩,
   ⟨"metaclass_evaltime2", ["metaclass_evalsupport", "descriptor_bulkfood2"]⟩,
   ⟨"metaclass_factory", []⟩,
   ⟨"property_attributes", []⟩,
   ⟨"property_bulkfood", []⟩,
   ⟨"property_factory", []⟩]

/-- A file is self-contained when it imports nothing from the repository. -/
def selfContained (f : SourceFile) : Bool := f.internalImports.isEmpty

/-! ### Helper lemmas about the decimal rendering of counters -/

theorem fromDigitsLE_natDigitsLE :
    ∀ fuel n : Nat, n ≤ fuel → fromDigitsLE (natDigitsLE fuel n) = n := by
  intro fuel
  induction fuel with
  | zero =>
      intro n hn
      interval_cases n
      simp [natDigitsLE, fromDigitsLE]
  | succ f ih =>
      intro n hn
      by_cases h0 : n = 0
      · subst h0; simp [natDigitsLE, fromDigitsLE]
      · have hdiv : n / 10 ≤ f := by
          have : n / 10 < n := Nat.div_lt_self (Nat.pos_of_ne_zero h0) (by omega)
          omega
        simp only [natDigitsLE, if_neg h0, fromDigitsLE, ih (n / 10) hdiv]
        omega

theorem natDigitsLE_lt_ten :
    ∀ fuel n : Nat, ∀ x ∈ natDigitsLE fuel n, x < 10 := by
  intro fuel
  induction fuel with
  | zero => intro n x hx; simp [natDigitsLE] at hx
  | succ f ih =>
      intro n x hx
      by_cases h0 : n = 0
      · subst h0; simp [natDigitsLE] at hx
      · simp only [natDigitsLE, if_neg h0, List.mem_cons] at hx
        rcases hx with h | h
        · subst h; exact Nat.mod_lt n (by omega)
        · exact ih (n / 10) x h

theorem digitChar_inj_lt (a b : Nat) (ha : a < 10) (hb : b < 10)
    (h : Nat.digitChar a = Nat.digitChar b) : a = b := by
  have key : ∀ x : Fin 10, ∀ y : Fin 10,
      Nat.digitChar x.val = Nat.digitChar y.val → x.val = y.val := by decide
  exact key ⟨a, ha⟩ ⟨b, hb⟩ h

theorem map_digitChar_inj :
    ∀ l₁ l₂ : List Nat, (∀ x ∈ l₁, x < 10) → (∀ x ∈ l₂, x < 10) →
      l₁.map Nat.digitChar = l₂.map Nat.digitChar → l₁ = l₂ := by
  intro l₁
  induction l₁ with
  | nil => intro l₂ _ _ h; cases l₂ <;> simp_all
  | cons a as ih =>
      intro l₂ h₁ h₂ h
      cases l₂ with
      | nil => simp at h
      | cons b bs =>
          simp only [List.map_cons, List.cons.injEq] at h
          have hab : a = b :=
            digitChar_inj_lt a b (h₁ a (by simp)) (h₂ b (by simp)) h.1
          have htl : as = bs :=
            ih bs (fun x hx => h₁ x (by simp [hx])) (fun x hx => h₂ x (by simp [hx])) h.2
          rw [hab, htl]

theorem natReprChars_inj : Function.Injective natReprChars := by
  intro n m h
  unfold natReprChars at h
  by_cases hn : n = 0 <;> by_cases hm : m = 0
  · omega
  · exfalso
    rw [if_pos hn, if_neg hm] at h
    have h' : (natDigitsLE m m).map Nat.digitChar = ['0'] := by
      have := congrArg List.reverse h
      simpa using this.symm
    rcases hL : natDigitsLE m m with _ | ⟨d, ds⟩
    · rw [hL] at h'; simp at h'
    · rw [hL] at h'
      simp only [List.map_cons, List.cons.injEq, List.map_eq_nil_iff] at h'
      have hd : d = 0 := by
        have hdlt : d < 10 := natDigitsLE_lt_ten m m d (by rw [hL]; simp)
        exact digitChar_inj_lt d 0 hdlt (by omega) (by simpa using h'.1)
      have hm' : fromDigitsLE (natDigitsLE m m) = m := fromDigitsLE_natDigitsLE m m le_rfl
      rw [hL, h'.2, hd] at hm'
      simp [fromDigitsLE] at hm'
      exact hm (hm'.symm)
  · exfalso
    rw [if_neg hn, if_pos hm] at h
    have h' : (natDigitsLE n n).map Nat.digitChar = ['0'] := by
      have := congrArg List.reverse h
      simpa using this
    rcases hL : natDigitsLE n n with _ | ⟨d, ds⟩
    · rw [hL] at h'; simp at h'
    · rw [hL] at h'
      simp only [List.map_cons, List.cons.injEq, List.map_eq_nil_iff] at h'
      have hd : d = 0 := by
        have hdlt : d < 10 := natDigitsLE_lt_ten n n d (by rw [hL]; simp)
        exact digitChar_inj_lt d 0 hdlt (by omega) (by simpa using h'.1)
      have hn' : fromDigitsLE (natDigitsLE n n) = n := fromDigitsLE_natDigitsLE n n le_rfl
      rw [hL, h'.2, hd] at hn'
      simp [fromDigitsLE] at hn'
      exact hn (hn'.symm)
  · rw [if_neg hn, if_neg hm] at h
    have h' : (natDigitsLE n n).map Nat.digitChar = (natDigitsLE m m).map Nat.digitChar :=
      List.reverse_injective h
    have hdig : natDigitsLE n n = natDigitsLE m m :=
      map_digitChar_inj _ _ (natDigitsLE_lt_ten n n) (natDigitsLE_lt_ten m m) h'
    have := fromDigitsLE_natDigitsLE n n le_rfl
    rw [hdig, fromDigitsLE_natDigitsLE m m le_rfl] at this
    omega

theorem natRepr_inj : Function.Injective natRepr := by
  intro n m h
  exact natReprChars_inj (congrArg String.data h)

theorem autoStorageName_inj (pre : String) (i j : Nat)
    (h : autoStorageName pre i = autoStorageName pre j) : i = j := by
  have hd := congrArg String.data h
  simp only [autoStorageName] at hd
  have h1 : pre.data ++ '#' :: (natRepr i).data = pre.data ++ '#' :: (natRepr j).data :=
    (List.cons.injEq _ _ _ _ ▸ hd).2
  have h2 : (natRepr i).data = (natRepr j).data := by
    have := List.append_cancel_left h1
    exact (List.cons.injEq _ _ _ _ ▸ this).2
  exact natRepr_inj (String.ext h2)

theorem quantityAutoName_inj (i j : Nat)
    (h : quantityAutoName i = quantityAutoName j) : i = j := by
  have hd := congrArg String.data h
  simp only [quantityAutoName] at hd
  have h1 : "quantity_auto".data ++ ':' :: (natRepr i).data =
      "quantity_auto".data ++ ':' :: (natRepr j).data :=
    (List.cons.injEq _ _ _ _ ▸ hd).2
  have h2 : (natRepr i).data = (natRepr j).data := by
    have := List.append_cancel_left h1
    exact (List.cons.injEq _ _ _ _ ▸ this).2
  exact natRepr_inj (String.ext h2)

theorem hash_mem_autoStorageName (pre : String) (k : Nat) :
    '#' ∈ (autoStorageName pre k).data := by
  simp [autoStorageName]

/-- `dictGet` after `dictSet` at the same key returns the value just set. -/
theorem dictGet_dictSet_self (d : Dict) (k : String) (v : Value) :
    dictGet (dictSet d k v) k = some v := by
  induction d with
  | nil => simp [dictSet, dictGet]
  | cons p rest ih =>
      obtain ⟨k', v'⟩ := p
      by_cases h : k' = k
      · simp [dictSet, dictGet, h]
      · simp [dictSet, dictGet, h, ih]

/-- `dictGet` at another key is unchanged by `dictSet`. -/
theorem dictGet_dictSet_ne (d : Dict) (k k' : String) (v : Value) (h : k' ≠ k) :
    dictGet (dictSet d k v) k' = dictGet d k' := by
  have h' : ¬ k = k' := fun hh => h hh.symm
  induction d with
  | nil => simp [dictSet, dictGet, h']
  | cons p rest ih =>
      obtain ⟨k₀, v₀⟩ := p
      by_cases h0 : k₀ = k
      · subst h0
        simp [dictSet, dictGet, h']
      · simp only [dictSet, if_neg h0, dictGet]
        by_cases h1 : k₀ = k'
        · simp [h1]
        · simp [h1, ih]

/-- `seqSet` runs its continuation when no exception was raised. -/
@[simp] theorem seqSet_none (d : Dict) (f : Dict → Dict × Option String) :
    seqSet (d, none) f = f d := rfl

/-- `seqSet` propagates a raised exception. -/
@[simp] theorem seqSet_some (d : Dict) (e : String) (f : Dict → Dict × Option String) :
    seqSet (d, some e) f = (d, some e) := rfl

/-! ### The claims -/

/-- C1 (counterexample): the claim fails on the property-based variant of
property_bulkfood.py, where `price` is a plain attribute with no property
attached: assigning `-1` to `price` on an instance succeeds without raising,
and the constructor accepts `price = -1` as well. -/
theorem C1_counterexample :
    (propLineItemSetattr [] "price" (Value.num (-1))).2 = none ∧
    (propLineItemInit "walnuts" 10 (-1)).2 = none := by
  decide

/-- C1 (amended): in the property-based variant only `weight` is validated —
the setter raises `ValueError('value must be > 0')` exactly when the value is
`≤ 0` and succeeds exactly when it is `> 0`, while any value assigned to
`price` is accepted; in the set-only-descriptor and Validated-descriptor
variants both `weight` and `price` are validated the same way, and the
constructors raise `ValueError('value must be > 0')` exactly when a validated
numeric argument is `≤ 0` (for the Validated variant, provided the
description passed its own validation first). -/
theorem C1_amended_validation :
    (∀ (d : Dict) (v : Int),
        (propLineItemSetWeight d v).2 = some "value must be > 0" ↔ v ≤ 0) ∧
    (∀ (d : Dict) (v : Int), (propLineItemSetWeight d v).2 = none ↔ 0 < v) ∧
    (∀ (d : Dict) (v : Int), (propLineItemSetattr d "price" (Value.num v)).2 = none) ∧
    (∀ (sn : String) (d : Dict) (v : Int),
        (quantitySet sn d v).2 = some "value must be > 0" ↔ v ≤ 0) ∧
    (∀ (sn : String) (d : Dict) (v : Int), (quantitySet sn d v).2 = none ↔ 0 < v) ∧
    (∀ (sn : String) (d : Dict) (v : Int),
        (validatedQuantitySet sn d v).2 = some "value must be > 0" ↔ v ≤ 0) ∧
    (∀ (sn : String) (d : Dict) (v : Int),
        (validatedQuantitySet sn d v).2 = none ↔ 0 < v) ∧
    (∀ (desc : String) (w p : Int),
        (propLineItemInit desc w p).2 = some "value must be > 0" ↔ w ≤ 0) ∧
    (∀ (desc : String) (w p : Int),
        (qLineItemInit desc w p).2 = some "value must be > 0" ↔ (w ≤ 0 ∨ p ≤ 0)) ∧
    (∀ (desc : String) (w p : Int),
        (v2LineItemInit desc w p).2 = some "value must be > 0" ↔
          ((pyStrip desc).length ≠ 0 ∧ (w ≤ 0 ∨ p ≤ 0))) := by
  refine ⟨?_, ?_, ?_, ?_, ?_, ?_, ?_, ?_, ?_, ?_⟩
  · intro d v
    simp only [propLineItemSetWeight, quantitySet]
    split_ifs with h <;> simp <;> omega
  · intro d v
    simp only [propLineItemSetWeight, quantitySet]
    split_ifs with h <;> simp <;> omega
  · intro d v
    simp [propLineItemSetattr]
  · intro sn d v
    simp only [quantitySet]
    split_ifs with h <;> simp <;> omega
  · intro sn d v
    simp only [quantitySet]
    split_ifs with h <;> simp <;> omega
  · intro sn d v
    simp only [validatedQuantitySet, quantityValidate]
    split_ifs with h <;> simp [autoStorageSet] <;> omega
  · intro sn d v
    simp only [validatedQuantitySet, quantityValidate]
    split_ifs with h <;> simp [autoStorageSet] <;> omega
  · intro desc w p
    simp [propLineItemInit, propLineItemSetattr, propLineItemSetWeight, quantitySet]
    split_ifs with h <;> simp <;> omega
  · intro desc w p
    simp [qLineItemInit, quantitySet]
    split_ifs with h1 h2 <;> simp <;> omega
  · intro desc w p
    simp [v2LineItemInit, validatedNonBlankSet, nonBlankValidate,
      validatedQuantitySet, quantityValidate, autoStorageSet]
    split_ifs with h0 h1 h2 <;> simp [h0] <;> omega

/-- C3 (counterexample): the storage name produced by the first call of the
`quantity_auto` property factory is `'_quantity_auto:0'`, which is not of the
form `'_⟨ClassName⟩#⟨k⟩'` (the factory formats with a colon, and with the
function's name rather than a class name). -/
theorem C3_counterexample :
    ¬ ∃ (cn : String) (k : Nat), (mkQuantityAuto none).1 = autoStorageName cn k := by
  rintro ⟨cn, k, h⟩
  have hd := congrArg String.data h
  have hmem : '#' ∈ (mkQuantityAuto none).1.data := by
    rw [hd]; exact hash_mem_autoStorageName cn k
  revert hmem
  decide

/-- C3 (amended): storage names generated by `AutoStorage.__init__` and
`QuantityAuto.__init__` have the form `'_⟨ClassName⟩#⟨k⟩'` and those from the
`quantity_auto` factory the form `'_quantity_auto:⟨k⟩'`; each construction
bumps its counter by one, so counters are strictly increasing per
construction of the same class (each `AutoStorage` subclass keeps its own
counter), names from the same constructor with different counters are
distinct, and the managed classes of the source never assign the same
storage attribute to two of their managed attributes. -/
theorem C3_amended_storage_keys :
    (∀ (pre : String) (c : Nat), mkAutoStorage pre c = (autoStorageName pre c, c + 1)) ∧
    (∀ (pre : String) (i j : Nat), autoStorageName pre i = autoStorageName pre j → i = j) ∧
    (∀ c : Nat, mkQuantityAuto (some c) = (quantityAutoName (c + 1), some (c + 1))) ∧
    (∀ i j : Nat, quantityAutoName i = quantityAutoName j → i = j) ∧
    [autoStorageName "QuantityAuto" 0, autoStorageName "QuantityAuto" 1].Nodup ∧
    [autoStorageName "NonBlank" 0, autoStorageName "Quantity" 0,
      autoStorageName "Quantity" 1].Nodup ∧
    [autoStorageName "NonBlank" 1, autoStorageName "Quantity" 2,
      autoStorageName "Quantity" 3].Nodup ∧
    [(mkQuantityAuto none).1, quantityAutoName 1].Nodup := by
  refine ⟨fun pre c => rfl, autoStorageName_inj, fun c => rfl, quantityAutoName_inj,
    by decide, by decide, by decide, by decide⟩

/-- C3 (witness): the amended theorem's injectivity parts applied at concrete
inputs. -/
theorem C3_amended_storage_keys_witness :
    (autoStorageName "Quantity" 7 = autoStorageName "Quantity" 7 ∧ (7 : Nat) = 7) ∧
    (quantityAutoName 3 = quantityAutoName 3 ∧ (3 : Nat) = 3) :=
  ⟨⟨rfl, C3_amended_storage_keys.2.1 "Quantity" 7 7 rfl⟩,
   ⟨rfl, C3_amended_storage_keys.2.2.2.1 3 3 rfl⟩⟩

/-- C8 (counterexample): metaclass_bulkfood.py is not self-contained — it
pulls `Validated`, `Quantity` and `NonBlank` from descriptor_bulkfood2.py,
a source file of this repository, and its `LineItem` demonstration depends on
them. -/
theorem C8_counterexample :
    SourceFile.mk "metaclass_bulkfood" ["descriptor_bulkfood2"] ∈ repoFiles ∧
    selfContained (SourceFile.mk "metaclass_bulkfood" ["descriptor_bulkfood2"]) = false ∧
    repoFiles.all selfContained = false := by
  decide

/-- C8 (amended): most files are self-contained, but exactly seven import
definitions from another source file of the repository (at top level or in
their doctests): inheritance_mro.py, operator_overloading.py,
attribute_schedule.py, attribute_schedule2.py, metaclass_bulkfood.py,
metaclass_evaltime.py and metaclass_evaltime2.py. -/
theorem C8_amended_self_contained :
    (repoFiles.filter (fun f => !selfContained f)).map SourceFile.name =
      ["inheritance_mro", "operator_overloading", "attribute_schedule",
       "attribute_schedule2", "metaclass_bulkfood", "metaclass_evaltime",
       "metaclass_evaltime2"] := by
  decide

/-- C2: assignment to a validated managed attribute is atomic — in every
variant (plain `quantity` setters, `Validated` `Quantity`, `Validated`
`NonBlank`), when the assignment raises, the instance dictionary is
unchanged, and in particular a subsequent read of a storage attribute that
held `w` still returns `w`. -/
theorem C2_set_atomic :
    (∀ (sn : String) (d : Dict) (v : Int) (w : Value) (e : String),
        dictGet d sn = some w → (quantitySet sn d v).2 = some e →
          (quantitySet sn d v).1 = d ∧ dictGet (quantitySet sn d v).1 sn = some w) ∧
    (∀ (sn : String) (d : Dict) (v : Int) (w : Value) (e : String),
        dictGet d sn = some w → (validatedQuantitySet sn d v).2 = some e →
          (validatedQuantitySet sn d v).1 = d ∧
          dictGet (validatedQuantitySet sn d v).1 sn = some w) ∧
    (∀ (sn : String) (d : Dict) (s : String) (w : Value) (e : String),
        dictGet d sn = some w → (validatedNonBlankSet sn d s).2 = some e →
          (validatedNonBlankSet sn d s).1 = d ∧
          dictGet (validatedNonBlankSet sn d s).1 sn = some w) := by
  refine ⟨?_, ?_, ?_⟩
  · intro sn d v w e hget hraise
    unfold quantitySet at hraise ⊢
    split_ifs at hraise ⊢ with h
    all_goals exact ⟨rfl, hget⟩
  · intro sn d v w e hget hraise
    unfold validatedQuantitySet quantityValidate at hraise ⊢
    split_ifs at hraise ⊢ with h
    all_goals first
      | exact ⟨rfl, hget⟩
      | simp [autoStorageSet] at hraise
  · intro sn d s w e hget hraise
    simp only [validatedNonBlankSet, nonBlankValidate] at hraise ⊢
    split_ifs at hraise ⊢ with h
    all_goals first
      | exact ⟨rfl, hget⟩
      | simp [autoStorageSet] at hraise

/-- C2 (witness): the doctest scenario of property_bulkfood.py — the stored
weight is 10, assigning -20 raises, and the read still returns 10. -/
theorem C2_set_atomic_witness :
    dictGet [("weight", Value.num 10)] "weight" = some (Value.num 10) ∧
    (quantitySet "weight" [("weight", Value.num 10)] (-20)).2 = some "value must be > 0" ∧
    ((quantitySet "weight" [("weight", Value.num 10)] (-20)).1 = [("weight", Value.num 10)] ∧
     dictGet (quantitySet "weight" [("weight", Value.num 10)] (-20)).1 "weight" =
       some (Value.num 10)) :=
  ⟨by decide, by decide,
   C2_set_atomic.1 "weight" [("weight", Value.num 10)] (-20) (Value.num 10)
     "value must be > 0" (by decide) (by decide)⟩

/-- C4: set-then-get round-trip — for every value `v > 0`, after setting a
managed attribute to `v`, reading the same attribute on the same instance
returns exactly `v`, in the `AutoStorage.__get__`, `QuantityAuto.__get__`,
property-factory and set-only-`Quantity` variants. -/
theorem C4_set_get_roundtrip :
    (∀ (sn : String) (d : Dict) (v : Int), 0 < v →
        autoStorageGet sn (some (validatedQuantitySet sn d v).1) = PyObj.val (Value.num v)) ∧
    (∀ (sn : String) (d : Dict) (v : Int), 0 < v →
        quantityAutoGet sn (some (quantitySet sn d v).1) = PyObj.val (Value.num v)) ∧
    (∀ (sn : String) (d : Dict) (v : Int), 0 < v →
        qtyGetter sn (quantitySet sn d v).1 = some (Value.num v)) ∧
    (∀ (d : Dict) (v : Int), 0 < v →
        qLineItemGetattr (quantitySet "weight" d v).1 "weight" = PyObj.val (Value.num v)) := by
  refine ⟨?_, ?_, ?_, ?_⟩
  · intro sn d v hv
    have h : ¬ v ≤ 0 := by omega
    simp [validatedQuantitySet, quantityValidate, h, autoStorageSet, autoStorageGet,
      dictGet_dictSet_self]
  · intro sn d v hv
    simp [quantitySet, hv, quantityAutoGet, dictGet_dictSet_self]
  · intro sn d v hv
    simp [quantitySet, hv, qtyGetter, dictGet_dictSet_self]
  · intro d v hv
    simp [quantitySet, hv, qLineItemGetattr, dictGet_dictSet_self]

/-- C4 (witness): the round-trip at the concrete value 8 on an empty
instance dictionary, one conjunct per variant. -/
theorem C4_set_get_roundtrip_witness :
    (0 : Int) < 8 ∧
    autoStorageGet "_Quantity#weight"
        (some (validatedQuantitySet "_Quantity#weight" [] 8).1) = PyObj.val (Value.num 8) ∧
    quantityAutoGet "_QuantityAuto#0"
        (some (quantitySet "_QuantityAuto#0" [] 8).1) = PyObj.val (Value.num 8) ∧
    qtyGetter "weight" (quantitySet "weight" [] 8).1 = some (Value.num 8) ∧
    qLineItemGetattr (quantitySet "weight" [] 8).1 "weight" = PyObj.val (Value.num 8) :=
  ⟨by decide,
   C4_set_get_roundtrip.1 "_Quantity#weight" [] 8 (by decide),
   C4_set_get_roundtrip.2.1 "_QuantityAuto#0" [] 8 (by decide),
   C4_set_get_roundtrip.2.2.1 "weight" [] 8 (by decide),
   C4_set_get_roundtrip.2.2.2 [] 8 (by decide)⟩

/-- C5: aliasing and shadowing — `__get__` through the managed class
(`instance is None`) returns the descriptor instance while access through a
managed instance returns the value in that instance's storage attribute, for
both `AutoStorage` and `QuantityAuto`; the concrete `LineItemAuto` class
attributes behave accordingly; and in the set-only `Quantity` variant, whose
storage name equals the attribute name, class access yields the descriptor
while the instance attribute written by `__set__` shadows it on reads. -/
theorem C5_aliasing_shadowing :
    (∀ sn : String, autoStorageGet sn none = PyObj.descr sn) ∧
    (∀ sn : String, quantityAutoGet sn none = PyObj.descr sn) ∧
    (∀ (sn : String) (d : Dict) (v : Value), dictGet d sn = some v →
        autoStorageGet sn (some d) = PyObj.val v) ∧
    (∀ (sn : String) (d : Dict) (v : Value), dictGet d sn = some v →
        quantityAutoGet sn (some d) = PyObj.val v) ∧
    (qaLineItemClassGetattr "weight" = PyObj.descr "_QuantityAuto#0" ∧
     qaLineItemClassGetattr "price" = PyObj.descr "_QuantityAuto#1") ∧
    (qLineItemClassGetattr "weight" = PyObj.descr "weight" ∧
     qLineItemClassGetattr "price" = PyObj.descr "price") ∧
    (∀ (d : Dict) (v : Int), 0 < v →
        qLineItemGetattr (quantitySet "weight" d v).1 "weight" = PyObj.val (Value.num v) ∧
        qLineItemGetattr (quantitySet "price" d v).1 "price" = PyObj.val (Value.num v)) := by
  refine ⟨fun sn => rfl, fun sn => rfl, ?_, ?_, by decide, by decide, ?_⟩
  · intro sn d v h
    simp [autoStorageGet, h]
  · intro sn d v h
    simp [quantityAutoGet, h]
  · intro d v hv
    constructor <;> simp [quantitySet, hv, qLineItemGetattr, dictGet_dictSet_self]

/-- C5 (witness): the hypothesis-bearing parts at concrete inputs — a stored
coconut weight of 20 read back through both descriptor kinds, and the
shadowing read after a set. -/
theorem C5_aliasing_shadowing_witness :
    dictGet [("_QuantityAuto#0", Value.num 20)] "_QuantityAuto#0" = some (Value.num 20) ∧
    autoStorageGet "_QuantityAuto#0" (some [("_QuantityAuto#0", Value.num 20)]) =
      PyObj.val (Value.num 20) ∧
    quantityAutoGet "_QuantityAuto#0" (some [("_QuantityAuto#0", Value.num 20)]) =
      PyObj.val (Value.num 20) ∧
    (qLineItemGetattr (quantitySet "weight" [] 20).1 "weight" = PyObj.val (Value.num 20) ∧
     qLineItemGetattr (quantitySet "price" [] 20).1 "price" = PyObj.val (Value.num 20)) :=
  ⟨by decide,
   C5_aliasing_shadowing.2.2.1 "_QuantityAuto#0" _ _ (by decide),
   C5_aliasing_shadowing.2.2.2.1 "_QuantityAuto#0" _ _ (by decide),
   C5_aliasing_shadowing.2.2.2.2.2.2 [] 20 (by decide)⟩

/-- C6: `NonBlank` validation — the assignment raises
`ValueError('value cannot be empty or blank')` exactly when the stripped
string is empty; it succeeds exactly otherwise, and then it stores the
stripped string, so a read after the assignment returns `s.strip()`. -/
theorem C6_nonblank :
    (∀ (sn : String) (d : Dict) (s : String),
        (validatedNonBlankSet sn d s).2 = some "value cannot be empty or blank" ↔
          (pyStrip s).length = 0) ∧
    (∀ (sn : String) (d : Dict) (s : String), (validatedNonBlankSet sn d s).2 = none ↔
          (pyStrip s).length ≠ 0) ∧
    (∀ (sn : String) (d : Dict) (s : String), (pyStrip s).length ≠ 0 →
        (validatedNonBlankSet sn d s).1 = dictSet d sn (Value.str (pyStrip s)) ∧
        dictGet (validatedNonBlankSet sn d s).1 sn = some (Value.str (pyStrip s))) := by
  refine ⟨?_, ?_, ?_⟩
  · intro sn d s
    simp only [validatedNonBlankSet, nonBlankValidate]
    split_ifs with h <;> simp [autoStorageSet, h]
  · intro sn d s
    simp only [validatedNonBlankSet, nonBlankValidate]
    split_ifs with h <;> simp [autoStorageSet, h]
  · intro sn d s h
    simp only [validatedNonBlankSet, nonBlankValidate]
    split_ifs with h0
    · exact absurd h0 h
    · exact ⟨rfl, dictGet_dictSet_self d sn (Value.str (pyStrip s))⟩

/-- C6 (witness): assigning `'  hi '` stores and re-reads `'hi'`, the
stripped string. -/
theorem C6_nonblank_witness :
    (pyStrip "  hi ").length ≠ 0 ∧
    ((validatedNonBlankSet "_NonBlank#description" [] "  hi ").1 =
        dictSet [] "_NonBlank#description" (Value.str (pyStrip "  hi ")) ∧
     dictGet (validatedNonBlankSet "_NonBlank#description" [] "  hi ").1
        "_NonBlank#description" = some (Value.str (pyStrip "  hi "))) :=
  ⟨by decide, C6_nonblank.2.2 "_NonBlank#description" [] "  hi " (by decide)⟩

/-- `entityMeta2Init` rewrites the attribute list exactly like the `entity`
decorator does. -/
theorem entityMeta2Init_fst (body : List (String × ClassAttr)) :
    (entityMeta2Init body).1 = body.map fun p => (p.1, validatedRename p.1 p.2) := by
  induction body with
  | nil => simp [entityMeta2Init]
  | cons p rest ih =>
      obtain ⟨key, attr⟩ := p
      cases attr <;> simp [entityMeta2Init, validatedRename, ih]

/-- `entityMeta2Init` collects exactly the keys of the `Validated`
attributes, in order. -/
theorem entityMeta2Init_snd (body : List (String × ClassAttr)) :
    (entityMeta2Init body).2 = (body.filter fun p => isValidatedAttr p.2).map Prod.fst := by
  induction body with
  | nil => simp [entityMeta2Init]
  | cons p rest ih =>
      obtain ⟨key, attr⟩ := p
      cases attr <;> simp [entityMeta2Init, isValidatedAttr, List.filter_cons, ih]

/-- Membership in a renamed class body forces the storage name. -/
theorem mem_map_validatedRename (body : List (String × ClassAttr)) (key : String)
    (k : VKind) (sn : String)
    (h : (key, ClassAttr.validated k sn) ∈ body.map fun p => (p.1, validatedRename p.1 p.2)) :
    sn = String.mk ('_' :: (vTypeName k).data ++ '#' :: key.data) := by
  simp only [List.mem_map] at h
  obtain ⟨⟨key', attr⟩, _, heq⟩ := h
  have hkey : key' = key := congrArg Prod.fst heq
  have hattr : validatedRename key' attr = ClassAttr.validated k sn := congrArg Prod.snd heq
  subst hkey
  cases attr with
  | validated k0 sn0 =>
      simp only [validatedRename, ClassAttr.validated.injEq] at hattr
      obtain ⟨hk, hsn⟩ := hattr
      subst hk
      exact hsn.symm
  | other => simp [validatedRename] at hattr

/-- C7: storage-key customization at class creation — after the `entity`
decorator, `EntityMeta.__init__` or `EntityMeta2.__init__` processed a class
body, every `Validated` descriptor declared under attribute name `key`, of
descriptor type `T`, has `storage_name = '_T#key'`. -/
theorem C7_storage_key_customization :
    (∀ (body : List (String × ClassAttr)) (key : String) (k : VKind) (sn : String),
        (key, ClassAttr.validated k sn) ∈ entityDecorate body →
          sn = String.mk ('_' :: (vTypeName k).data ++ '#' :: key.data)) ∧
    (∀ (body : List (String × ClassAttr)) (key : String) (k : VKind) (sn : String),
        (key, ClassAttr.validated k sn) ∈ entityMetaInit body →
          sn = String.mk ('_' :: (vTypeName k).data ++ '#' :: key.data)) ∧
    (∀ (body : List (String × ClassAttr)) (key : String) (k : VKind) (sn : String),
        (key, ClassAttr.validated k sn) ∈ (entityMeta2Init body).1 →
          sn = String.mk ('_' :: (vTypeName k).data ++ '#' :: key.data)) := by
  refine ⟨?_, ?_, ?_⟩
  · intro body key k sn h
    exact mem_map_validatedRename body key k sn h
  · intro body key k sn h
    exact mem_map_validatedRename body key k sn h
  · intro body key k sn h
    rw [entityMeta2Init_fst] at h
    exact mem_map_validatedRename body key k sn h

/-- C7 (witness): in the metaclass_bulkfood.py `LineItem` body, the
`Quantity` descriptor under `weight` ends up with storage name
`'_Quantity#weight'`. -/
theorem C7_storage_key_customization_witness :
    ("weight", ClassAttr.validated VKind.quantity "_Quantity#weight") ∈
      entityMetaInit metaLineItemBody ∧
    "_Quantity#weight" = String.mk ('_' :: (vTypeName VKind.quantity).data ++ '#' :: "weight".data) :=
  ⟨by decide,
   C7_storage_key_customization.2.1 metaLineItemBody "weight" VKind.quantity
     "_Quantity#weight" (by decide)⟩

/-- C9: for every successfully constructed `LineItem`, in each variant,
`subtotal()` returns the product of the stored weight and price. -/
theorem C9_subtotal :
    (∀ (desc : String) (w p : Int) (d : Dict),
        propLineItemInit desc w p = (d, none) → propLineItemSubtotal d = some (w * p)) ∧
    (∀ (desc : String) (w p : Int) (d : Dict),
        qLineItemInit desc w p = (d, none) → qLineItemSubtotal d = some (w * p)) ∧
    (∀ (desc : String) (w p : Int) (d : Dict),
        qaLineItemInit desc w p = (d, none) → qaLineItemSubtotal d = some (w * p)) ∧
    (∀ (desc : String) (w p : Int) (d : Dict),
        pfLineItemInit desc w p = (d, none) → pfLineItemSubtotal d = some (w * p)) ∧
    (∀ (desc : String) (w p : Int) (d : Dict),
        v2LineItemInit desc w p = (d, none) → v2LineItemSubtotal d = some (w * p)) := by
  refine ⟨?_, ?_, ?_, ?_, ?_⟩
  · intro desc w p d h
    simp [propLineItemInit, propLineItemSetattr, propLineItemSetWeight, quantitySet] at h
    split_ifs at h
    all_goals simp at h
    subst h
    simp [propLineItemSubtotal, propLineItemGetWeight, dictGet, dictSet]
  · intro desc w p d h
    simp [qLineItemInit, quantitySet] at h
    split_ifs at h
    all_goals simp at h
    subst h
    simp [qLineItemSubtotal, qLineItemGetattr, dictGet, dictSet]
  · intro desc w p d h
    simp [qaLineItemInit, quantitySet] at h
    split_ifs at h
    all_goals simp at h
    subst h
    simp [qaLineItemSubtotal, qaLineItemGetattr, quantityAutoGet, dictGet, dictSet]
  · intro desc w p d h
    simp [pfLineItemInit, quantitySet] at h
    split_ifs at h
    all_goals simp at h
    subst h
    simp [pfLineItemSubtotal, qtyGetter, dictGet, dictSet]
  · intro desc w p d h
    simp [v2LineItemInit, validatedNonBlankSet, nonBlankValidate, validatedQuantitySet,
      quantityValidate, autoStorageSet] at h
    split_ifs at h
    all_goals simp at h
    subst h
    simp [v2LineItemSubtotal, autoStorageGet, dictGet, dictSet]

/-- C9 (witness): the concrete item (description `'raisins'`, weight 10,
price 7) in each variant: the constructor succeeds and `subtotal()` returns
`10 * 7`. -/
theorem C9_subtotal_witness :
    propLineItemSubtotal
        [("description", Value.str "raisins"), ("_LineItem__weight", Value.num 10),
         ("price", Value.num 7)] = some (10 * 7) ∧
    qLineItemSubtotal
        [("description", Value.str "raisins"), ("weight", Value.num 10),
         ("price", Value.num 7)] = some (10 * 7) ∧
    qaLineItemSubtotal
        [("description", Value.str "raisins"), ("_QuantityAuto#1", Value.num 7),
         ("_QuantityAuto#0", Value.num 10)] = some (10 * 7) ∧
    pfLineItemSubtotal
        [("description", Value.str "raisins"), ("weight", Value.num 10),
         ("price", Value.num 7)] = some (10 * 7) ∧
    v2LineItemSubtotal
        [("_NonBlank#description", Value.str "raisins"), ("_Quantity#price", Value.num 7),
         ("_Quantity#weight", Value.num 10)] = some (10 * 7) :=
  ⟨C9_subtotal.1 "raisins" 10 7 _ (by decide),
   C9_subtotal.2.1 "raisins" 10 7 _ (by decide),
   C9_subtotal.2.2.1 "raisins" 10 7 _ (by decide),
   C9_subtotal.2.2.2.1 "raisins" 10 7 _ (by decide),
   C9_subtotal.2.2.2.2 "raisins" 10 7 _ (by decide)⟩

/-- C10: `field_names()` of a class built with `EntityMeta2` yields exactly
the names of its `Validated` class attributes, in declaration order; for the
metaclass_bulkfood.py `LineItem` this is `description`, `weight`, `price`. -/
theorem C10_field_names :
    (∀ body : List (String × ClassAttr),
        fieldNames (entityMeta2Init body) =
          (body.filter fun p => isValidatedAttr p.2).map Prod.fst) ∧
    fieldNames (entityMeta2Init metaLineItemBody) = ["description", "weight", "price"] := by
  constructor
  · intro body
    exact entityMeta2Init_snd body
  · decide

end FluentPython
